import Mathlib

/-!
Verification of the route-handler resolution layer (`src/starlite/handlers.py`).

The Python classes are shallowly embedded: a handler node together with its
ownership chain (handler -> controller -> router -> app) is a `Node` holding
the list of `Layer` configuration records returned by `ownership_layers`
(head = the handler itself, last = the root).  The mutable memo attributes
(`resolved_guards`, `resolved_dependencies`, ...) are explicit `Option`
fields, `none` playing the role of the `_empty` sentinel; each resolver
returns its result together with the updated node.  Python dicts are ordered
association lists; exceptions are an explicit error type threaded through
`Except`.
-/

namespace Starlite

/-- A guard callable (`starlite.types.Guard`), opaque up to identity. -/
structure Guard where
  id : Nat
deriving DecidableEq, Repr

/-- Modelled from the spec: `starlite.provide.Provide` is not under `src/`;
the spec describes a provider as an opaque callable identity with value
semantics for equality comparison, which is all the handler code uses. -/
structure Provide where
  id : Nat
deriving DecidableEq, BEq, Repr

/-- A response-header specification (`starlite.types.ResponseHeader`); the
handler code only reads its `value` attribute. -/
structure ResponseHeader where
  value : Nat
deriving DecidableEq, Repr

/-- A response class (`starlite.response.Response` or a subclass), opaque up
to identity. -/
structure ResponseClass where
  id : Nat
deriving DecidableEq, Repr

/-- Modelled from the spec: `starlite.response.Response` is not under `src/`;
the default response class used by `resolve_response_class`. -/
def Response : ResponseClass := ResponseClass.mk 0

/-- Modelled from the spec: `starlite.enums.HttpMethod` is not under `src/`.
The spec names the five verbs GET/POST/PUT/PATCH/DELETE; the status-code
table (201 for POST, 204 for DELETE) reached through an `==` comparison with
the stored method string, and the `"GET" in self.http_methods` validation
check, imply the enum is a `str` enum whose values are the uppercase method
names. -/
inductive HttpMethod where
  | GET
  | POST
  | PUT
  | PATCH
  | DELETE
deriving DecidableEq, Repr

/-- The string value of an `HttpMethod` member. -/
def HttpMethod.value : HttpMethod → String
  | .GET => "GET"
  | .POST => "POST"
  | .PUT => "PUT"
  | .PATCH => "PATCH"
  | .DELETE => "DELETE"

/-- A value of Python type `Union[HttpMethod, Method]`: either an enum member
or a plain method string. -/
inductive MethodVal where
  | enum (m : HttpMethod)
  | str (s : String)
deriving DecidableEq, Repr

/-- The underlying string of a `MethodVal`.  `HttpMethod` is a `str` enum, so
Python `==` between any two such values compares these strings. -/
def MethodVal.toStr : MethodVal → String
  | .enum m => m.value
  | .str s => s

/-- Python `v.upper()` on a method value: always a plain string. -/
def MethodVal.upper (v : MethodVal) : MethodVal := .str v.toStr.toUpper

/-- Computation rule for `MethodVal.toStr` on a plain string. -/
@[simp] theorem MethodVal.toStr_str (s : String) : (MethodVal.str s).toStr = s := rfl

/-- Modelled from the spec: `starlite.enums.MediaType` is not under `src/`;
a `str` enum with the three members used by the handler code. -/
inductive MediaType where
  | JSON
  | HTML
  | TEXT
deriving DecidableEq, Repr

/-- The string value of a `MediaType` member. -/
def MediaType.value : MediaType → String
  | .JSON => "application/json"
  | .HTML => "text/html"
  | .TEXT => "text/plain"

/-- A value of Python type `Union[MediaType, str]`. -/
inductive MediaTypeVal where
  | enum (m : MediaType)
  | str (s : String)
deriving DecidableEq, Repr

/-- The underlying string: `self.media_type.value if isinstance(self.media_type,
Enum) else self.media_type` (line 374), and also what Python `==` compares. -/
def MediaTypeVal.toStr : MediaTypeVal → String
  | .enum m => m.value
  | .str s => s

/-- Plain (non-response) handler return data for the plugin branch of
`to_response`: a scalar object or a list/tuple of objects. -/
inductive PlainData where
  | atom (v : Nat)
  | seq (items : List Nat)
deriving DecidableEq, Repr

/-- The exceptions raised by `handlers.py`, with their `detail` strings. -/
inductive StarliteError where
  | improperlyConfigured (detail : String)
  | validationError (detail : String)
  | internalServer (detail : String)
  | runtimeError (detail : String)
  | nameError (name : String)
deriving DecidableEq, Repr

/-- A built wire-level response, one constructor per starlette response
class instantiated by `to_response`; `passthrough` is a handler return value
that already was a `StarletteResponse` and is handed through unchanged. -/
inductive BuiltResponse where
  | redirectResponse (headers : List (String × Nat)) (statusCode : Nat) (url : String)
  | fileResponse (mediaType : String) (headers : List (String × Nat)) (filePayload : Nat)
  | streamingResponse (content : Nat) (statusCode : Nat) (mediaType : String)
      (headers : List (String × Nat))
  | classResponse (cls : ResponseClass) (headers : List (String × Nat)) (statusCode : Nat)
      (content : PlainData) (mediaType : String) (background : Option Nat)
  | passthrough (native : Nat)
deriving DecidableEq, Repr

/-- A `before_request` hook, opaque: the handler code only resolves it. -/
def BeforeHook : Type := Nat

/-- An `after_request` hook: `to_response` invokes it on the built response
(line 417).  The model elides awaiting and the bound-method `__func__`
normalization, which does not change the function applied. -/
def AfterHook : Type := BuiltResponse → BuiltResponse

/-- The handler return value dispatched on by `to_response`: an already-built
response, one of the `StarliteType` wrappers (`Redirect`, `File`, `Stream`,
`Template` from `starlite.datastructures`), or plain data. -/
inductive HandlerValue where
  | response (native : Nat)
  | redirect (path : String)
  | file (payload : Nat)
  | stream (iterator : Nat)
  | template (name : String) (context : Nat)
  | plain (d : PlainData)

/-- One layer of the ownership chain (the handler itself, a `Controller` or a
`Router`): the attributes each layer contributes to resolution. -/
structure Layer where
  guards : Option (List Guard) := none
  dependencies : Option (List (String × Provide)) := none
  response_headers : Option (List (String × ResponseHeader)) := none
  response_class : Option ResponseClass := none
  before_request : Option BeforeHook := none
  after_request : Option AfterHook := none

/-- The stored `self.http_method`: a single value or a list (lines 217-222). -/
inductive StoredMethod where
  | single (v : MethodVal)
  | multi (vs : List MethodVal)
deriving DecidableEq, Repr

/-- The parts of an inspected handler signature the validators read: the
declared parameter names and the return annotation. -/
inductive ClassAnnotation where
  | redirect
  | file
  | otherClass
deriving DecidableEq, Repr

/-- A return annotation as `Signature.from_callable` reports it: absent
(`Signature.empty`), the `None` object, a class, or some other object. -/
inductive Annotation where
  | empty
  | noneType
  | cls (c : ClassAnnotation)
  | other
deriving DecidableEq, Repr

/-- A handler function signature. -/
structure FnSignature where
  params : List String
  return_annotation : Annotation
deriving DecidableEq, Repr

/-- A route-handler node: its ownership chain (`layers`, head = the node
itself as yielded first by `ownership_layers`), its own scalar attributes,
and the memoized fields (`none` = the `_empty` sentinel). -/
structure Node where
  layers : List Layer
  fn : Option FnSignature := none
  signature_model : Bool := false
  http_method : StoredMethod := .single (.str "GET")
  status_code : Nat := 200
  media_type : MediaTypeVal := .enum .JSON
  background_tasks : Option Nat := none
  resolved_guards : Option (List Guard) := none
  resolved_dependencies : Option (List (String × Provide)) := none
  resolved_headers : Option (List (String × ResponseHeader)) := none
  resolved_response_class : Option ResponseClass := none
  resolved_before_request : Option (Option BeforeHook) := none
  resolved_after_request : Option (Option AfterHook) := none

/-- The guard list a layer contributes: `layer.guards` if truthy (non-`None`
and non-empty) else nothing; extending by the empty list is the identity, so
the falsy cases coincide. -/
def layerGuards (l : Layer) : List Guard := l.guards.getD []

/-- `BaseRouteHandler.resolve_guards` (lines 105-114): on first call collect
every layer's guards walking node to root, reverse the flat list, memoize. -/
def resolve_guards (n : Node) : List Guard × Node :=
  match n.resolved_guards with
  | some gs => (gs, n)
  | none =>
      let collected := ((n.layers.map layerGuards).flatten).reverse
      (collected, { n with resolved_guards := some collected })

/-- Lookup in an ordered association list, the first binding winning: the
embedding of `key in dict` / `dict[key]`. -/
def dictLookup {α : Type} (l : List (String × α)) (k : String) : Option α :=
  (l.find? (fun kv => kv.1 == k)).map (fun kv => kv.2)

/-- The dependency dict a layer contributes: `(layer.dependencies or {})`. -/
def layerDeps (l : Layer) : List (String × Provide) := l.dependencies.getD []

/-- The `detail` string of the exception raised by
`validate_dependency_is_unique` (lines 139-142). -/
def dupProviderMsg (key dependencyKey : String) : String :=
  "Provider for key " ++ key ++ " is already defined under the different key " ++
    dependencyKey ++ ". If you wish to override a provider, it must have the same key."

/-- `BaseRouteHandler.validate_dependency_is_unique` (lines 132-142): scan the
already-registered providers in order and raise on the first one equal to
`provider`. -/
def validate_dependency_is_unique (dependencies : List (String × Provide)) (key : String)
    (provider : Provide) : Except StarliteError Unit :=
  match dependencies with
  | [] => .ok ()
  | (dependencyKey, value) :: rest =>
      if provider = value then
        .error (.improperlyConfigured (dupProviderMsg key dependencyKey))
      else
        validate_dependency_is_unique rest key provider

/-- The inner double loop of `resolve_dependencies` (lines 124-128) run over
the concatenation of all layers' dependency items in walk order: skip a key
already present, otherwise validate uniqueness and insert at the end. -/
def mergeDeps (acc : List (String × Provide)) :
    List (String × Provide) → Except StarliteError (List (String × Provide))
  | [] => .ok acc
  | (key, value) :: rest =>
      if (dictLookup acc key).isSome then mergeDeps acc rest
      else
        match validate_dependency_is_unique acc key value with
        | .error e => .error e
        | .ok _ => mergeDeps (acc ++ [(key, value)]) rest

/-- The same walk without the uniqueness check: first-seen key wins.  Used to
state what the merge produces. -/
def mergeFirstSeen {α : Type} (acc : List (String × α)) :
    List (String × α) → List (String × α)
  | [] => acc
  | (key, value) :: rest =>
      if (dictLookup acc key).isSome then mergeFirstSeen acc rest
      else mergeFirstSeen (acc ++ [(key, value)]) rest

/-- All dependency items of the ownership chain in walk order (node first). -/
def allDepItems (n : Node) : List (String × Provide) := (n.layers.map layerDeps).flatten

/-- `BaseRouteHandler.resolve_dependencies` (lines 116-130): requires a
signature model, then merges the chain's dependency dicts with the uniqueness
check, memoizing the result. -/
def resolve_dependencies (n : Node) :
    Except StarliteError (List (String × Provide) × Node) :=
  if ¬ n.signature_model then
    .error (.runtimeError
      "resolve_dependencies cannot be called before a signature model has been generated")
  else
    match n.resolved_dependencies with
    | some d => .ok (d, n)
    | none =>
        match mergeDeps [] (allDepItems n) with
        | .error e => .error e
        | .ok d => .ok (d, { n with resolved_dependencies := some d })

/-- The response-header dict a layer contributes: `(layer.response_headers or {})`. -/
def layerHeaders (l : Layer) : List (String × ResponseHeader) := l.response_headers.getD []

/-- `HTTPRouteHandler.resolve_response_headers` (lines 283-294): merge the
chain's header dicts, first-seen key winning, memoized. -/
def resolve_response_headers (n : Node) : List (String × ResponseHeader) × Node :=
  match n.resolved_headers with
  | some h => (h, n)
  | none =>
      let h := mergeFirstSeen [] ((n.layers.map layerHeaders).flatten)
      (h, { n with resolved_headers := some h })

/-- `HTTPRouteHandler.resolve_response_class` (lines 273-281): the closest
layer's non-`None` response class, defaulting to `Response`, memoized. -/
def resolve_response_class (n : Node) : ResponseClass × Node :=
  match n.resolved_response_class with
  | some rc => (rc, n)
  | none =>
      let rc := (((n.layers.find? (fun l => l.response_class.isSome)).bind
        Layer.response_class).getD Response)
      (rc, { n with resolved_response_class := some rc })

/-- `HTTPRouteHandler.resolve_before_request` (lines 296-313): the closest
layer's truthy `before_request` hook, else `None`, memoized (tri-state versus
the `_empty` sentinel).  The bound-method `__func__` normalization is the
identity in this model, hooks being plain function values. -/
def resolve_before_request (n : Node) : Option BeforeHook × Node :=
  match n.resolved_before_request with
  | some r => (r, n)
  | none =>
      let r := (n.layers.find? (fun l => l.before_request.isSome)).bind Layer.before_request
      (r, { n with resolved_before_request := some r })

/-- `HTTPRouteHandler.resolve_after_request` (lines 315-332): the closest
layer's truthy `after_request` hook, else `None`, memoized. -/
def resolve_after_request (n : Node) : Option AfterHook × Node :=
  match n.resolved_after_request with
  | some r => (r, n)
  | none =>
      let r := (n.layers.find? (fun l => l.after_request.isSome)).bind Layer.after_request
      (r, { n with resolved_after_request := some r })

/-- The `http_method` argument of `HTTPRouteHandler.__init__`: `None` (its
default), a scalar, or a list. -/
inductive HttpMethodInput where
  | noneVal
  | scalar (v : MethodVal)
  | list (vs : List MethodVal)

/-- Python truthiness of the `http_method` argument (line 215): `None`, an
empty list and an empty string are falsy. -/
def HttpMethodInput.truthy : HttpMethodInput → Bool
  | .noneVal => false
  | .scalar v => v.toStr ≠ ""
  | .list vs => ¬ vs.isEmpty

/-- Modelled from the spec: `HTTP_200_OK` etc. come from `starlette.status`,
not under `src/`; the spec states the default table 200/201/204. -/
def HTTP_200_OK : Nat := 200

/-- The 201 Created status constant. -/
def HTTP_201_CREATED : Nat := 201

/-- The 204 No Content status constant. -/
def HTTP_204_NO_CONTENT : Nat := 204

/-- Lines 217-222 of `HTTPRouteHandler.__init__`: a list argument is
uppercased elementwise, then a length-one list collapses to its original
(not uppercased, not `.value`-extracted) sole element; a scalar argument is
stored as its underlying string. -/
def storeHttpMethod : HttpMethodInput → StoredMethod
  | .list vs =>
      if vs.length = 1 then .single (vs.headD (.str ""))
      else .multi (vs.map MethodVal.upper)
  | .scalar v => .single (.str v.toStr)
  | .noneVal => .single (.str "")

/-- Lines 225-232: the default status code for a stored method, 200 for a
stored list, 201 when the stored method `==` `HttpMethod.POST`, 204 for
`DELETE`, else 200. -/
def defaultStatusCode (stored : StoredMethod) : Nat :=
  match stored with
  | .multi _ => HTTP_200_OK
  | .single v =>
      if v.toStr = HttpMethod.POST.value then HTTP_201_CREATED
      else if v.toStr = HttpMethod.DELETE.value then HTTP_204_NO_CONTENT
      else HTTP_200_OK

/-- Lines 223-232: the status code chosen by `HTTPRouteHandler.__init__`,
a truthy (`if status_code:`) explicit `status_code` winning, else the
default table. -/
def initStatusCode (stored : StoredMethod) (status_code : Option Nat) : Nat :=
  match status_code with
  | some c => if c ≠ 0 then c else defaultStatusCode stored
  | none => defaultStatusCode stored

/-- Lines 215-232 of `HTTPRouteHandler.__init__` as a whole: the required
`http_method` check, the stored method and the derived status code. -/
def initMethodAndStatus (http_method : HttpMethodInput) (status_code : Option Nat) :
    Except StarliteError (StoredMethod × Nat) :=
  if ¬ http_method.truthy then
    .error (.improperlyConfigured "An http_method kwarg is required")
  else
    let stored := storeHttpMethod http_method
    .ok (stored, initStatusCode stored status_code)

/-- `HTTPRouteHandler.http_methods` (lines 334-339): the stored method as a
list. -/
def http_methods (stored : StoredMethod) : List MethodVal :=
  match stored with
  | .multi vs => vs
  | .single v => [v]

/-- Modelled from the spec: `starlite.constants.REDIRECT_STATUS_CODES` is not
under `src/`; the spec lists the valid redirect codes 301, 302, 303, 307, 308. -/
def REDIRECT_STATUS_CODES : List Nat := [301, 302, 303, 307, 308]

/-- The `detail` of the missing-return-annotation `ValidationException`
(lines 349-352). -/
def returnAnnotationMsg : String :=
  "A return value of a route handler function should be type annotated." ++
    "If your function doesn't return a value or returns None, annotate it as returning None."

/-- The `detail` of the redirect-status `ValidationException` (lines 356-359),
the valid codes joined with a comma. -/
def redirectStatusMsg : String :=
  "Redirect responses should have one of the following status codes: " ++
    String.intercalate ", " (REDIRECT_STATUS_CODES.map toString)

/-- Python `"GET" in self.http_methods` (line 364): membership by `==`, which
for a `str` enum member compares the underlying string. -/
def methodsContainGET (stored : StoredMethod) : Bool :=
  (http_methods stored).any (fun v => v.toStr == "GET")

/-- Python `self.media_type in [MediaType.JSON, MediaType.HTML]` (line 360):
membership by `==` on the underlying strings. -/
def mediaTypeIsJsonOrHtml (mt : MediaTypeVal) : Bool :=
  mt.toStr == MediaType.JSON.value || mt.toStr == MediaType.HTML.value

namespace HTTPRouteHandler

/-- `HTTPRouteHandler.validate_handler_function` (lines 341-365): requires
`fn` (the `super()` check), a declared return annotation, a valid redirect
status pairing for a `Redirect` return class; coerces the media type of a
`File` return class away from JSON/HTML; forbids a `socket` parameter and a
`data` parameter on a GET handler.  Returns the node (the `File` branch
mutates `self.media_type`). -/
def validate_handler_function (n : Node) : Except StarliteError Node :=
  match n.fn with
  | none => .error (.improperlyConfigured
      "Cannot call validate_handler_function without first setting self.fn")
  | some sig =>
      if sig.return_annotation = .empty then
        .error (.validationError returnAnnotationMsg)
      else if sig.return_annotation = .cls .redirect ∧
          n.status_code ∉ REDIRECT_STATUS_CODES then
        .error (.validationError redirectStatusMsg)
      else
        let n1 := if sig.return_annotation = .cls .file ∧
            mediaTypeIsJsonOrHtml n.media_type then
          { n with media_type := .enum .TEXT } else n
        if "socket" ∈ sig.params then
          .error (.improperlyConfigured
            "The 'socket' kwarg is not supported with http handlers")
        else if "data" ∈ sig.params ∧ methodsContainGET n1.http_method then
          .error (.improperlyConfigured
            "'data' kwarg is unsupported for 'GET' request handlers")
        else .ok n1

end HTTPRouteHandler

namespace WebsocketRouteHandler

/-- `WebsocketRouteHandler.validate_handler_function` (lines 685-699): the
return annotation must be the `None` object, a `socket` parameter is
required, `request` and `data` parameters are forbidden. -/
def validate_handler_function (fn : Option FnSignature) : Except StarliteError Unit :=
  match fn with
  | none => .error (.improperlyConfigured
      "Cannot call validate_handler_function without first setting self.fn")
  | some sig =>
      if sig.return_annotation ≠ .noneType then
        .error (.improperlyConfigured "Websocket handler functions should return 'None'")
      else if "socket" ∉ sig.params then
        .error (.improperlyConfigured "Websocket handlers must set a 'socket' kwarg")
      else if "request" ∈ sig.params then
        .error (.improperlyConfigured
          "The 'request' kwarg is not supported with websocket handlers")
      else if "data" ∈ sig.params then
        .error (.improperlyConfigured
          "The 'data' kwarg is not supported with websocket handlers")
      else .ok ()

end WebsocketRouteHandler

/-- Modelled from the spec: `starlite.plugins.base` is not under `src/`; the
spec describes a plugin as a type-match predicate plus a converter to a plain
structure. -/
structure Plugin where
  supports : PlainData → Bool
  to_dict : Nat → Nat

/-- Modelled from the spec: `get_plugin_for_value` queries the ordered plugin
registry for the first plugin whose predicate matches the value. -/
def get_plugin_for_value (value : PlainData) (plugins : List Plugin) : Option Plugin :=
  plugins.find? (fun p => p.supports value)

/-- Lines 401-406: apply a matching plugin, elementwise when the value is a
list or tuple. -/
def applyPlugins (d : PlainData) (plugins : List Plugin) : PlainData :=
  match get_plugin_for_value d plugins with
  | some plugin =>
      match d with
      | .seq items => .seq (items.map plugin.to_dict)
      | .atom a => .atom (plugin.to_dict a)
  | none => d

/-- The header dict built at line 375: each resolved header name mapped to
its `.value`. -/
def headerDict (hs : List (String × ResponseHeader)) : List (String × Nat) :=
  hs.map (fun kv => (kv.1, kv.2.value))

/-- Line 416-419: run the resolved `after_request` hook on the built
response, when there is one. -/
def apply_after_request (ar : Option AfterHook) (r : BuiltResponse) : BuiltResponse :=
  match ar with
  | some f => f r
  | none => r

/-- `HTTPRouteHandler.to_response` (lines 367-420).  The awaitable unwrapping
is the identity here (values arrive already awaited).  The `Template` branch
(line 387) reads the name `request`, which is defined in no enclosing scope
of `handlers.py`, so CPython raises `NameError` there before any
template-engine check; the `InternalServerException` at line 397 is
unreachable. -/
def to_response (n : Node) (data : HandlerValue) (plugins : List Plugin) :
    Except StarliteError (BuiltResponse × Node) :=
  let ar := (resolve_after_request n).1
  let n1 := (resolve_after_request n).2
  let mediaType := n1.media_type.toStr
  let hs := (resolve_response_headers n1).1
  let n2 := (resolve_response_headers n1).2
  let headers := headerDict hs
  match data with
  | .redirect path =>
      .ok (apply_after_request ar (.redirectResponse headers n2.status_code path), n2)
  | .file payload =>
      .ok (apply_after_request ar (.fileResponse mediaType headers payload), n2)
  | .stream iterator =>
      .ok (apply_after_request ar
        (.streamingResponse iterator n2.status_code mediaType headers), n2)
  | .template _ _ => .error (.nameError "request")
  | .response native => .ok (apply_after_request ar (.passthrough native), n2)
  | .plain d =>
      let d1 := applyPlugins d plugins
      let cls := (resolve_response_class n2).1
      let n3 := (resolve_response_class n2).2
      .ok (apply_after_request ar
        (.classResponse cls headers n2.status_code d1 mediaType n2.background_tasks), n3)

/-! Helper lemmas about the resolvers. -/

/-- Resolving the after-request hook does not change the scalar attributes of
the node. -/
theorem resolve_after_request_status (n : Node) :
    (resolve_after_request n).2.status_code = n.status_code := by
  rcases h : n.resolved_after_request with _ | r <;> simp [resolve_after_request, h]

/-- Resolving the response headers does not change the scalar attributes of
the node. -/
theorem resolve_response_headers_status (n : Node) :
    (resolve_response_headers n).2.status_code = n.status_code := by
  rcases h : n.resolved_headers with _ | r <;> simp [resolve_response_headers, h]

/-! C1: guard resolution order. -/

/-- A depth-one ownership chain whose only layer declares two guards, in the
declared order g1, g2. -/
def c1Node : Node := { layers := [{ guards := some [Guard.mk 1, Guard.mk 2] }] }

/-- C1 counterexample: for the depth-1 chain `c1Node` with guard list
[g1, g2], the root-first concatenation of layer guard lists in declared order
is [g1, g2], but `resolve_guards` returns [g2, g1]: the code reverses the
flattened walk list elementwise, so the declared order inside each layer is
inverted, refuting the claim as stated. -/
theorem resolve_guards_within_layer_order_cex :
    (resolve_guards c1Node).1 = [Guard.mk 2, Guard.mk 1] ∧
    (resolve_guards c1Node).1 ≠ [Guard.mk 1, Guard.mk 2] := by
  constructor
  · rfl
  · decide

/-- C1 (amended): `resolve_guards` returns the reverse of the node-to-root
flattened concatenation of the layers' guard lists — equivalently, the layers
ordered root-first with each layer's guards in reverse declared order — and a
second call returns the identical memoized value. -/
theorem resolve_guards_reverse_of_walk (n : Node) (h : n.resolved_guards = none) :
    (resolve_guards n).1 = ((n.layers.map layerGuards).flatten).reverse ∧
    (resolve_guards n).1 = (((n.layers.map layerGuards).map List.reverse).reverse).flatten ∧
    resolve_guards ((resolve_guards n).2) = resolve_guards n := by
  refine ⟨?_, ?_, ?_⟩
  · simp [resolve_guards, h]
  · simp [resolve_guards, h, List.reverse_flatten]
  · simp [resolve_guards, h]

/-- C1 witness: the amended theorem applied to a concrete two-layer chain. -/
theorem resolve_guards_reverse_of_walk_witness :
    (resolve_guards c1Node).1 = ((c1Node.layers.map layerGuards).flatten).reverse ∧
    (resolve_guards c1Node).1 =
      (((c1Node.layers.map layerGuards).map List.reverse).reverse).flatten ∧
    resolve_guards ((resolve_guards c1Node).2) = resolve_guards c1Node :=
  resolve_guards_reverse_of_walk c1Node rfl

/-! C2: the Template branch of to_response. -/

/-- C2 (code bug): for every node and every `Template` return value,
`to_response` raises `NameError` for the undefined name `request` (line 387),
with or without a configured template engine — the template engine is not
reachable from `to_response`'s scope at all, and the
`InternalServerException` branch for a missing engine (line 397) is dead
code.  The spec's intended behavior (render via the configured engine, or a
server-configuration error when the engine is absent) is what the claim
states; the code cannot exhibit it. -/
theorem to_response_template_name_error (n : Node) (name : String) (context : Nat)
    (plugins : List Plugin) :
    to_response n (.template name context) plugins = .error (.nameError "request") := rfl

/-! C3: a length-one http_method list versus the scalar method. -/

/-- What Python `==` observes of a stored `http_method`: a string for a
scalar (a `str` enum member equals its value string), a list of strings for a
list. -/
def storedMethodObs : StoredMethod → Sum String (List String)
  | .single v => .inl v.toStr
  | .multi vs => .inr (vs.map MethodVal.toStr)

/-- C3: constructing a handler with `http_method=[m]` and with
`http_method=m` yields stored `http_method` values that are `==`-equal as
Python values, elementwise-equal `http_methods` lists, and the same derived
status code, for every method value and every explicit status argument.  (The
collapsed list stores the original element while the scalar branch stores its
`.value` string; for a `str` enum these are `==`-equal, which is what every
downstream check compares.) -/
theorem http_method_singleton_list_equiv (v : MethodVal) (sc : Option Nat)
    (hv : v.toStr ≠ "") :
    (initMethodAndStatus (.list [v]) sc).map
        (fun p => (storedMethodObs p.1, (http_methods p.1).map MethodVal.toStr, p.2)) =
      (initMethodAndStatus (.scalar v) sc).map
        (fun p => (storedMethodObs p.1, (http_methods p.1).map MethodVal.toStr, p.2)) := by
  have ht : HttpMethodInput.truthy (.scalar v) = true := by
    simp [HttpMethodInput.truthy, hv]
  have ht2 : HttpMethodInput.truthy (.list [v]) = true := by
    simp [HttpMethodInput.truthy]
  cases sc <;>
    simp [initMethodAndStatus, ht, ht2, storeHttpMethod, http_methods,
      storedMethodObs, initStatusCode, defaultStatusCode, Except.map]

/-- C3 witness: the equivalence at the concrete input `[HttpMethod.POST]`
versus `HttpMethod.POST` with no explicit status code. -/
theorem http_method_singleton_list_equiv_witness :
    (initMethodAndStatus (.list [MethodVal.enum .POST]) none).map
        (fun p => (storedMethodObs p.1, (http_methods p.1).map MethodVal.toStr, p.2)) =
      (initMethodAndStatus (.scalar (MethodVal.enum .POST)) none).map
        (fun p => (storedMethodObs p.1, (http_methods p.1).map MethodVal.toStr, p.2)) :=
  http_method_singleton_list_equiv (MethodVal.enum .POST) none (by decide)

/-! C6: default status codes. -/

/-- C6 counterexample: an explicitly given status code of 0 is falsy in
Python (`if status_code:`), so the construction ignores it and falls back to
the method default (200 for GET) instead of using the given value. -/
theorem status_code_zero_cex :
    initMethodAndStatus (.scalar (.enum .GET)) (some 0) =
      .ok (.single (.str "GET"), 200) ∧ (200 : Nat) ≠ 0 := by
  constructor
  · rfl
  · decide

/-- C6 (amended): a handler constructed from a scalar enum method without an
explicit status code gets 200 for GET/PUT/PATCH, 201 for POST and 204 for
DELETE; an explicitly given nonzero status code is used regardless of method;
an explicit 0 is treated as absent (Python truthiness) and the default table
applies. -/
theorem default_status_code_table (m : HttpMethod) (hm : HttpMethodInput) (c : Nat)
    (hc : c ≠ 0) (ht : hm.truthy = true) :
    (initMethodAndStatus (.scalar (.enum m)) none =
      .ok (.single (.str m.value),
        if m = .POST then 201 else if m = .DELETE then 204 else 200)) ∧
    (∃ stored, initMethodAndStatus hm (some c) = .ok (stored, c)) := by
  constructor
  · cases m <;> rfl
  · refine ⟨storeHttpMethod hm, ?_⟩
    simp [initMethodAndStatus, ht, initStatusCode, hc]

/-- C6 witness: the default 201 for POST, and an explicit 418 on a GET
handler being used as given. -/
theorem default_status_code_table_witness :
    (initMethodAndStatus (.scalar (.enum .POST)) none =
      .ok (.single (.str HttpMethod.POST.value),
        if HttpMethod.POST = .POST then 201
        else if HttpMethod.POST = .DELETE then 204 else 200)) ∧
    (∃ stored, initMethodAndStatus (.scalar (.enum .GET)) (some 418) = .ok (stored, 418)) :=
  default_status_code_table .POST (.scalar (.enum .GET)) 418 (by decide) (by decide)

/-! C8: WebSocket handler validation. -/

/-- C8: WebSocket handler validation succeeds exactly when the return
annotation is the `None` object, a `socket` parameter is present, and no
`request` or `data` parameter is present; equivalently it fails iff the
signature lacks `socket`, or contains `request` or `data`, or its return
annotation is not `None` (a missing annotation included). -/
theorem websocket_validate_iff (sig : FnSignature) :
    WebsocketRouteHandler.validate_handler_function (some sig) = .ok () ↔
      (sig.return_annotation = .noneType ∧ "socket" ∈ sig.params ∧
        "request" ∉ sig.params ∧ "data" ∉ sig.params) := by
  simp only [WebsocketRouteHandler.validate_handler_function]
  split_ifs with h1 h2 h3 h4 <;> simp_all

/-! C9: idempotence of the resolvers. -/

/-- C9: every resolver is idempotent: a second call on the node returned by
the first yields the same result and the same node (the memoized value, with
no re-merged or duplicated entries); for `resolve_dependencies`, whenever the
first call succeeds the second returns the identical mapping and node. -/
theorem resolvers_idempotent (n : Node) :
    resolve_guards ((resolve_guards n).2) = resolve_guards n ∧
    resolve_response_headers ((resolve_response_headers n).2) = resolve_response_headers n ∧
    resolve_response_class ((resolve_response_class n).2) = resolve_response_class n ∧
    resolve_before_request ((resolve_before_request n).2) = resolve_before_request n ∧
    resolve_after_request ((resolve_after_request n).2) = resolve_after_request n ∧
    (∀ d n2, resolve_dependencies n = .ok (d, n2) →
      resolve_dependencies n2 = .ok (d, n2)) := by
  refine ⟨?_, ?_, ?_, ?_, ?_, ?_⟩
  · rcases h : n.resolved_guards with _ | g <;> simp [resolve_guards, h]
  · rcases h : n.resolved_headers with _ | g <;> simp [resolve_response_headers, h]
  · rcases h : n.resolved_response_class with _ | g <;> simp [resolve_response_class, h]
  · rcases h : n.resolved_before_request with _ | g <;> simp [resolve_before_request, h]
  · rcases h : n.resolved_after_request with _ | g <;> simp [resolve_after_request, h]
  · intro d n2 hok
    rcases hsig : n.signature_model with _ | _
    · simp [resolve_dependencies, hsig] at hok
    · rcases hm : n.resolved_dependencies with _ | d0
      · rcases hmerge : mergeDeps [] (allDepItems n) with e | d1
        · simp [resolve_dependencies, hsig, hm, hmerge] at hok
        · simp [resolve_dependencies, hsig, hm, hmerge] at hok
          obtain ⟨hd, hn⟩ := hok
          subst hd
          subst hn
          simp [resolve_dependencies, hsig]
      · simp [resolve_dependencies, hsig, hm] at hok
        obtain ⟨hd, hn⟩ := hok
        subst hd
        subst hn
        simp [resolve_dependencies, hsig, hm]

/-- A one-layer chain with one dependency, used to witness the
`resolve_dependencies` clause of idempotence. -/
def c9Node : Node :=
  { layers := [{ dependencies := some [("key", Provide.mk 1)] }], signature_model := true }

/-- C9 witness: the dependency-resolver clause applied to `c9Node`, whose
first call succeeds by computation. -/
theorem resolvers_idempotent_witness :
    resolve_dependencies { c9Node with resolved_dependencies := some [("key", Provide.mk 1)] } =
      .ok ([("key", Provide.mk 1)],
        { c9Node with resolved_dependencies := some [("key", Provide.mk 1)] }) :=
  (resolvers_idempotent c9Node).2.2.2.2.2 [("key", Provide.mk 1)]
    { c9Node with resolved_dependencies := some [("key", Provide.mk 1)] } rfl

/-! C10: passthrough of an already-built response. -/

/-- C10: a handler return value that is already a protocol-native response
(and none of the wrapper kinds) is passed through `to_response` unchanged —
no resolved headers, status code or media type are applied to it — with only
the resolved after-request hook, when present, mapping it to the final
response; when no hook is resolved the result is exactly the original
response object. -/
theorem to_response_native_passthrough (n : Node) (native : Nat) (plugins : List Plugin) :
    (to_response n (.response native) plugins =
      .ok (apply_after_request (resolve_after_request n).1 (.passthrough native),
        (resolve_response_headers (resolve_after_request n).2).2)) ∧
    ((resolve_after_request n).1 = none →
      to_response n (.response native) plugins =
        .ok (.passthrough native, (resolve_response_headers (resolve_after_request n).2).2)) := by
  constructor
  · rfl
  · intro har
    simp [to_response, har, apply_after_request]

/-- C10 witness: the hook-free clause at a concrete hook-free node. -/
theorem to_response_native_passthrough_witness :
    to_response c1Node (.response 5) [] =
      .ok (.passthrough 5, (resolve_response_headers (resolve_after_request c1Node).2).2) :=
  (to_response_native_passthrough c1Node 5 []).2 rfl

/-! C7: redirect status validation and redirect responses. -/

/-- C7: for a handler whose declared return type is the `Redirect` class,
validation fails with the redirect-status `ValidationException` when the
status code is 200 (not a valid redirect code), and passes with 302 provided
no other rule trips (no `socket` parameter, no `data` parameter on a GET
handler); and `to_response` on a `Redirect` value (with no after-request
hook resolved) builds a `RedirectResponse` whose target URL is exactly the
value's `path` and whose status code is the handler's. -/
theorem redirect_status_validation_and_response (n : Node) (sig : FnSignature)
    (path : String) (plugins : List Plugin)
    (hfn : n.fn = some sig) (hann : sig.return_annotation = .cls .redirect) :
    (n.status_code = 200 →
      HTTPRouteHandler.validate_handler_function n =
        .error (.validationError redirectStatusMsg)) ∧
    (n.status_code = 302 → "socket" ∉ sig.params →
      ¬("data" ∈ sig.params ∧ methodsContainGET n.http_method = true) →
      HTTPRouteHandler.validate_handler_function n = .ok n) ∧
    ((resolve_after_request n).1 = none →
      ∃ headers n2, to_response n (.redirect path) plugins =
        .ok (.redirectResponse headers n.status_code path, n2)) := by
  refine ⟨?_, ?_, ?_⟩
  · intro h200
    simp [HTTPRouteHandler.validate_handler_function, hfn, hann, h200,
      REDIRECT_STATUS_CODES]
  · intro h302 hsock hdata
    simp [HTTPRouteHandler.validate_handler_function, hfn, hann, h302,
      REDIRECT_STATUS_CODES, hsock, hdata]
  · intro har
    refine ⟨headerDict (resolve_response_headers (resolve_after_request n).2).1,
      (resolve_response_headers (resolve_after_request n).2).2, ?_⟩
    have hst : ((resolve_response_headers (resolve_after_request n).2).2).status_code =
        n.status_code := by
      rw [resolve_response_headers_status, resolve_after_request_status]
    simp [to_response, har, apply_after_request, hst]

/-- A redirect-returning handler signature with an innocuous parameter. -/
def c7Sig : FnSignature := { params := ["request_kwarg"], return_annotation := .cls .redirect }

/-- A redirect handler node with status code 200. -/
def c7Node200 : Node := { layers := [{}], fn := some c7Sig, status_code := 200 }

/-- A redirect handler node with status code 302. -/
def c7Node302 : Node := { layers := [{}], fn := some c7Sig, status_code := 302 }

/-- C7 witness: the theorem applied to concrete nodes with status 200 and
302 and to a concrete redirect path. -/
theorem redirect_status_validation_and_response_witness :
    (HTTPRouteHandler.validate_handler_function c7Node200 =
      .error (.validationError redirectStatusMsg)) ∧
    (HTTPRouteHandler.validate_handler_function c7Node302 = .ok c7Node302) ∧
    (∃ headers n2, to_response c7Node302 (.redirect "/target") [] =
      .ok (.redirectResponse headers c7Node302.status_code "/target", n2)) :=
  ⟨(redirect_status_validation_and_response c7Node200 c7Sig "/target" [] rfl rfl).1 rfl,
   (redirect_status_validation_and_response c7Node302 c7Sig "/target" [] rfl rfl).2.1 rfl
     (by decide) (by decide),
   (redirect_status_validation_and_response c7Node302 c7Sig "/target" [] rfl rfl).2.2 rfl⟩

/-! C4 and C5: dependency resolution. Lemmas about the merge walk. -/

/-- No provider aliasing: no two entries of the list carry the same
provider. -/
abbrev noAlias (l : List (String × Provide)) : Prop :=
  l.Pairwise (fun a b => a.2 ≠ b.2)

/-- A key that occurs in the list is found by `dictLookup`. -/
theorem dictLookup_isSome_of_mem {α : Type} {l : List (String × α)} {k : String} {v : α}
    (h : (k, v) ∈ l) : (dictLookup l k).isSome := by
  induction l with
  | nil => simp at h
  | cons kv rest ih =>
      obtain ⟨a, b⟩ := kv
      by_cases hak : a = k
      · subst hak
        simp [dictLookup]
      · rcases List.mem_cons.mp h with heq | hr
        · exact absurd (congrArg Prod.fst heq).symm hak
        · have := ih hr
          simpa [dictLookup, List.find?_cons, hak] using this

/-- `dictLookup` distributes over append, the left list winning. -/
theorem dictLookup_append {α : Type} (a b : List (String × α)) (k : String) :
    dictLookup (a ++ b) k = (dictLookup a k).or (dictLookup b k) := by
  unfold dictLookup
  rw [List.find?_append]
  cases a.find? (fun kv => kv.1 == k) <;> simp

/-- The merge only ever appends to its accumulator. -/
theorem mergeFirstSeen_prefix {α : Type} (items acc : List (String × α)) :
    ∃ t, mergeFirstSeen acc items = acc ++ t := by
  induction items generalizing acc with
  | nil => exact ⟨[], by simp [mergeFirstSeen]⟩
  | cons kv rest ih =>
      obtain ⟨key, value⟩ := kv
      by_cases hk : (dictLookup acc key).isSome
      · obtain ⟨t, ht⟩ := ih acc
        exact ⟨t, by simp [mergeFirstSeen, hk, ht]⟩
      · obtain ⟨t, ht⟩ := ih (acc ++ [(key, value)])
        exact ⟨(key, value) :: t, by simp [mergeFirstSeen, hk]; simpa using ht⟩

/-- Looking a key up in the merged dict is looking it up in the accumulator
followed by the raw walk items: the first-seen entry wins. -/
theorem mergeFirstSeen_lookup {α : Type} (items acc : List (String × α)) (k : String) :
    dictLookup (mergeFirstSeen acc items) k = dictLookup (acc ++ items) k := by
  induction items generalizing acc with
  | nil => simp [mergeFirstSeen]
  | cons kv rest ih =>
      obtain ⟨key, value⟩ := kv
      by_cases hk : (dictLookup acc key).isSome
      · rw [show mergeFirstSeen acc ((key, value) :: rest) = mergeFirstSeen acc rest by
          simp [mergeFirstSeen, hk]]
        rw [ih, dictLookup_append, dictLookup_append]
        by_cases hkk : key = k
        · subst hkk
          obtain ⟨v0, hv0⟩ := Option.isSome_iff_exists.mp hk
          simp [hv0]
        · have hhead : dictLookup ((key, value) :: rest) k = dictLookup rest k := by
            simp [dictLookup, List.find?_cons, hkk]
          rw [hhead]
      · rw [show mergeFirstSeen acc ((key, value) :: rest) =
            mergeFirstSeen (acc ++ [(key, value)]) rest by simp [mergeFirstSeen, hk]]
        rw [ih]
        simp

/-- A successful `mergeDeps` run returns exactly the first-seen merge. -/
theorem mergeDeps_ok_eq (items acc d : List (String × Provide))
    (h : mergeDeps acc items = .ok d) : d = mergeFirstSeen acc items := by
  induction items generalizing acc with
  | nil =>
      simp [mergeDeps] at h
      simp [mergeFirstSeen, h]
  | cons kv rest ih =>
      obtain ⟨key, value⟩ := kv
      by_cases hk : (dictLookup acc key).isSome
      · rw [show mergeFirstSeen acc ((key, value) :: rest) = mergeFirstSeen acc rest by
          simp [mergeFirstSeen, hk]]
        exact ih acc (by simpa [mergeDeps, hk] using h)
      · rw [show mergeFirstSeen acc ((key, value) :: rest) =
            mergeFirstSeen (acc ++ [(key, value)]) rest by simp [mergeFirstSeen, hk]]
        rcases hval : validate_dependency_is_unique acc key value with e | u
        · simp [mergeDeps, hk, hval] at h
        · exact ih (acc ++ [(key, value)]) (by simpa [mergeDeps, hk, hval] using h)

/-- When no registered provider equals the incoming one, the uniqueness check
passes. -/
theorem validate_ok_of_not_mem (acc : List (String × Provide)) (k : String) (p : Provide)
    (h : ∀ kv ∈ acc, Prod.snd kv ≠ p) : validate_dependency_is_unique acc k p = .ok () := by
  induction acc with
  | nil => rfl
  | cons kv rest ih =>
      obtain ⟨dk, v⟩ := kv
      have hv : ¬ p = v := fun he => (h (dk, v) (by simp)) (by simp [he])
      simp [validate_dependency_is_unique, hv]
      exact ih (fun kv hkv => h kv (List.mem_cons_of_mem _ hkv))

/-- When some registered provider equals the incoming one, the uniqueness
check raises the configuration error naming the incoming key and the first
clashing registered key. -/
theorem validate_error_of_mem (acc : List (String × Provide)) (k : String) (p : Provide)
    (h : ∃ kv ∈ acc, Prod.snd kv = p) :
    ∃ dk, (dk, p) ∈ acc ∧ validate_dependency_is_unique acc k p =
      .error (.improperlyConfigured (dupProviderMsg k dk)) := by
  induction acc with
  | nil => simp at h
  | cons kv rest ih =>
      obtain ⟨dk0, v⟩ := kv
      by_cases hp : p = v
      · subst hp
        exact ⟨dk0, by simp, by simp [validate_dependency_is_unique]⟩
      · have h' : ∃ kv ∈ rest, Prod.snd kv = p := by
          rcases h with ⟨kv, hmem, hval⟩
          rcases List.mem_cons.mp hmem with rfl | hr
          · exact absurd hval.symm (by simpa using hp)
          · exact ⟨kv, hr, hval⟩
        obtain ⟨dk, hdk, hval⟩ := ih h'
        exact ⟨dk, List.mem_cons_of_mem _ hdk,
          by simp [validate_dependency_is_unique, hp, hval]⟩

/-- The dependency merge succeeds with the first-seen merge exactly when the
winning entries alias no provider; otherwise it raises the configuration
error naming two distinct winning keys that share one provider. -/
theorem mergeDeps_characterization (items acc : List (String × Provide))
    (hacc : noAlias acc) :
    (noAlias (mergeFirstSeen acc items) →
      mergeDeps acc items = .ok (mergeFirstSeen acc items)) ∧
    (¬ noAlias (mergeFirstSeen acc items) →
      ∃ k1 k2 p, k1 ≠ k2 ∧ (k1, p) ∈ mergeFirstSeen acc items ∧
        (k2, p) ∈ mergeFirstSeen acc items ∧
        mergeDeps acc items = .error (.improperlyConfigured (dupProviderMsg k2 k1))) := by
  induction items generalizing acc with
  | nil =>
      constructor
      · intro _
        simp [mergeDeps, mergeFirstSeen]
      · intro hno
        exact absurd (by simpa [mergeFirstSeen] using hacc) hno
  | cons kv rest ih =>
      obtain ⟨key, value⟩ := kv
      by_cases hk : (dictLookup acc key).isSome
      · have heq : mergeFirstSeen acc ((key, value) :: rest) = mergeFirstSeen acc rest := by
          simp [mergeFirstSeen, hk]
        have heqd : mergeDeps acc ((key, value) :: rest) = mergeDeps acc rest := by
          simp [mergeDeps, hk]
        rw [heq, heqd]
        exact ih acc hacc
      · have heq : mergeFirstSeen acc ((key, value) :: rest) =
            mergeFirstSeen (acc ++ [(key, value)]) rest := by
          simp [mergeFirstSeen, hk]
        by_cases hmem : ∃ kv ∈ acc, Prod.snd kv = value
        · obtain ⟨dk, hdk_mem, hval⟩ := validate_error_of_mem acc key value hmem
          have heqd : mergeDeps acc ((key, value) :: rest) =
              .error (.improperlyConfigured (dupProviderMsg key dk)) := by
            simp [mergeDeps, hk, hval]
          obtain ⟨t, ht⟩ := mergeFirstSeen_prefix rest (acc ++ [(key, value)])
          have hdk_ne : dk ≠ key := by
            intro hcontra
            subst hcontra
            exact hk (dictLookup_isSome_of_mem hdk_mem)
          have hmem1 : (dk, value) ∈ mergeFirstSeen acc ((key, value) :: rest) := by
            rw [heq, ht]
            exact List.mem_append_left _ (List.mem_append_left _ hdk_mem)
          have hmem2 : (key, value) ∈ mergeFirstSeen acc ((key, value) :: rest) := by
            rw [heq, ht]
            exact List.mem_append_left _ (List.mem_append_right _ (by simp))
          have hnoal : ¬ noAlias (mergeFirstSeen acc ((key, value) :: rest)) := by
            rw [heq, ht]
            intro hpw
            have hpw1 : noAlias (acc ++ [(key, value)]) :=
              List.Pairwise.sublist (List.sublist_append_left _ _) hpw
            rw [noAlias, List.pairwise_append] at hpw1
            exact hpw1.2.2 (dk, value) hdk_mem (key, value) (by simp) rfl
          constructor
          · intro hno
            exact absurd hno hnoal
          · intro _
            exact ⟨dk, key, value, hdk_ne, hmem1, hmem2, heqd⟩
        · have hnotmem : ∀ kv ∈ acc, Prod.snd kv ≠ value := by
            intro kv hkv
            exact fun he => hmem ⟨kv, hkv, he⟩
          have hvalok : validate_dependency_is_unique acc key value = .ok () :=
            validate_ok_of_not_mem acc key value hnotmem
          have heqd : mergeDeps acc ((key, value) :: rest) =
              mergeDeps (acc ++ [(key, value)]) rest := by
            simp [mergeDeps, hk, hvalok]
          have hacc' : noAlias (acc ++ [(key, value)]) := by
            rw [noAlias, List.pairwise_append]
            refine ⟨hacc, by simp, ?_⟩
            intro a ha b hb
            have hb' : b = (key, value) := by simpa using hb
            subst hb'
            exact hnotmem a ha
          rw [heq, heqd]
          exact ih (acc ++ [(key, value)]) hacc'

/-- Whether some layer of the chain declares the binding `k -> p`. -/
def declaresProvider (n : Node) (k : String) (p : Provide) : Bool :=
  n.layers.any (fun l => (layerDeps l).any (fun kv => kv.1 == k && kv.2 == p))

/-- A chain where the node maps `first -> provider 1`, a middle layer maps
`second -> provider 2` (shadowing the root), and the root maps
`second -> provider 1`. -/
def c4Node : Node :=
  { layers := [{ dependencies := some [("first", Provide.mk 1)] },
               { dependencies := some [("second", Provide.mk 2)] },
               { dependencies := some [("second", Provide.mk 1)] }],
    signature_model := true }

/-- C4 counterexample: in `c4Node` the two different names `first` and
`second` both map to provider 1 somewhere in the ownership-chain
declarations, yet `resolve_dependencies` raises no error at all: the root's
`second -> provider 1` is shadowed by the middle layer and is skipped before
the uniqueness check runs, so the call returns a mapping, refuting the claim
as stated. -/
theorem resolve_dependencies_shadowed_alias_cex :
    declaresProvider c4Node "first" (Provide.mk 1) = true ∧
    declaresProvider c4Node "second" (Provide.mk 1) = true ∧
    ("first" : String) ≠ "second" ∧
    resolve_dependencies c4Node =
      .ok ([("first", Provide.mk 1), ("second", Provide.mk 2)],
        { c4Node with
          resolved_dependencies := some [("first", Provide.mk 1), ("second", Provide.mk 2)] }) := by
  refine ⟨by decide, by decide, by decide, rfl⟩

/-- C4 (amended): `resolve_dependencies` fails with a configuration error
naming two keys exactly when two different names have equal providers among
the winning (nearest-layer, first-seen) entries of the walk; aliasing in
which one of the declarations is shadowed by a nearer layer with the same
name raises no error, and with no winning-entry aliasing the call returns
the first-seen merge without error. -/
theorem resolve_dependencies_alias_characterization (n : Node)
    (hsig : n.signature_model = true) (hmemo : n.resolved_dependencies = none) :
    (noAlias (mergeFirstSeen [] (allDepItems n)) →
      resolve_dependencies n = .ok (mergeFirstSeen [] (allDepItems n),
        { n with resolved_dependencies := some (mergeFirstSeen [] (allDepItems n)) })) ∧
    (¬ noAlias (mergeFirstSeen [] (allDepItems n)) →
      ∃ k1 k2 p, k1 ≠ k2 ∧ (k1, p) ∈ mergeFirstSeen [] (allDepItems n) ∧
        (k2, p) ∈ mergeFirstSeen [] (allDepItems n) ∧
        resolve_dependencies n = .error (.improperlyConfigured (dupProviderMsg k2 k1))) := by
  have hchar := mergeDeps_characterization (allDepItems n) [] (by simp [noAlias])
  constructor
  · intro hno
    have hok := hchar.1 hno
    simp [resolve_dependencies, hsig, hmemo, hok]
  · intro hno
    obtain ⟨k1, k2, p, hne, h1, h2, herr⟩ := hchar.2 hno
    exact ⟨k1, k2, p, hne, h1, h2, by simp [resolve_dependencies, hsig, hmemo, herr]⟩

/-- A one-layer chain aliasing one provider under two names. -/
def c4AliasNode : Node :=
  { layers := [{ dependencies := some [("alpha", Provide.mk 7), ("beta", Provide.mk 7)] }],
    signature_model := true }

/-- C4 witness: the error clause of the characterization at `c4AliasNode`,
whose two winning entries share provider 7. -/
theorem resolve_dependencies_alias_characterization_witness :
    ∃ k1 k2 p, k1 ≠ k2 ∧ (k1, p) ∈ mergeFirstSeen [] (allDepItems c4AliasNode) ∧
      (k2, p) ∈ mergeFirstSeen [] (allDepItems c4AliasNode) ∧
      resolve_dependencies c4AliasNode =
        .error (.improperlyConfigured (dupProviderMsg k2 k1)) :=
  (resolve_dependencies_alias_characterization c4AliasNode rfl rfl).2 (by decide)

/-- C5: when `resolve_dependencies` returns a mapping (from a fresh node),
every declared name is bound to the provider of its first declaration in the
node-to-root walk, i.e. the declaration of the layer nearest to the node —
never a farther layer's provider for the same name. -/
theorem resolve_dependencies_nearest_wins (n : Node) (name : String) (p : Provide)
    (d : List (String × Provide)) (n2 : Node)
    (hmemo : n.resolved_dependencies = none)
    (hok : resolve_dependencies n = .ok (d, n2))
    (hdecl : dictLookup (allDepItems n) name = some p) :
    dictLookup d name = some p := by
  rcases hsig : n.signature_model with _ | _
  · simp [resolve_dependencies, hsig] at hok
  · rcases hmerge : mergeDeps [] (allDepItems n) with e | d0
    · simp [resolve_dependencies, hsig, hmemo, hmerge] at hok
    · simp [resolve_dependencies, hsig, hmemo, hmerge] at hok
      obtain ⟨hd, _⟩ := hok
      subst hd
      rw [mergeDeps_ok_eq (allDepItems n) [] d0 hmerge, mergeFirstSeen_lookup]
      simpa using hdecl

/-- A chain declaring `dep` at two distinct layers with different
providers: provider 1 at the node, provider 2 at the root. -/
def c5Node : Node :=
  { layers := [{ dependencies := some [("dep", Provide.mk 1)] },
               { dependencies := some [("dep", Provide.mk 2)] }],
    signature_model := true }

/-- C5 witness: on `c5Node` the resolved mapping binds `dep` to the
node-nearest provider 1, not the root's provider 2. -/
theorem resolve_dependencies_nearest_wins_witness :
    dictLookup [("dep", Provide.mk 1)] "dep" = some (Provide.mk 1) :=
  resolve_dependencies_nearest_wins c5Node "dep" (Provide.mk 1) [("dep", Provide.mk 1)]
    { c5Node with resolved_dependencies := some [("dep", Provide.mk 1)] } rfl rfl rfl

end Starlite
